import Mathlib

/-!
Formal model of the E-QFT V36.1 canonical lepton g−2 engine
(`src/physics/lepton_g2_canonical_v361.py`), of the unified-framework
wrapper (`unified_framework_with_v361.py`, muon path), and of the muon
calibration sweep (`calibrate_muon_v361.py`).

Python floats are modelled as exact rationals (ℚ) for all stored engine
parameters; formulas that involve π and exp produce real numbers (ℝ).
Fallible engine calls (unknown lepton identifier) return `Except`.
-/

open Real

/-- Error raised by engine calls on an unknown lepton identifier
(Python: `ValueError(f"Lepton type '{...}' not supported")`). -/
inductive G2Error where
  | unsupportedLepton
deriving DecidableEq

/-- State of a `LeptonG2CanonicalV361` instance.  The three
`delta_a_..._nf` back-compatibility aliases of the Python class are pure
duplicates of the `delta_a_nf` dictionary entries (kept synchronized by
`set_delta_a_nf`) and are therefore represented once. -/
structure LeptonG2CanonicalV361 where
  c1 : ℚ
  hardcoded_calibration : Bool
  m_e : ℚ
  m_mu : ℚ
  m_tau : ℚ
  phi_e : ℚ
  phi_mu : ℚ
  phi_tau : ℚ
  delta_a_e : ℚ
  delta_a_mu : ℚ
  delta_a_tau : ℚ
  a_mu_exp : ℚ
  sigma_mu_exp : ℚ
  a_e_exp : ℚ
  a_e_sm : ℚ
  sigma_e_exp : ℚ

/-- Constructor `LeptonG2CanonicalV361.__init__(chern_class=2.0,
hardcoded_calibration=True)` with its hardwired default parameters. -/
def LeptonG2CanonicalV361.init (chern_class : ℚ) (hardcoded_calibration : Bool) :
    LeptonG2CanonicalV361 where
  c1 := chern_class
  hardcoded_calibration := hardcoded_calibration
  m_e := 0.000510998950
  m_mu := 0.105658
  m_tau := 1.77686
  phi_e := 2.17
  phi_mu := 4.32
  phi_tau := 10.53
  delta_a_e := 3.1e-17
  delta_a_mu := 1.4538e-10
  delta_a_tau := 5.2e-10
  a_mu_exp := 2.51e-9
  sigma_mu_exp := 6.3e-10
  a_e_exp := 1.15965218073e-3
  a_e_sm := 1.15965218076e-3
  sigma_e_exp := 2.8e-13

/-- `compute_berry_overlap(phi_l)`: overlap factor Ω = 1 − φ/(4π). -/
noncomputable def compute_berry_overlap (phi_l : ℚ) : ℝ :=
  1 - (phi_l : ℝ) / (4 * Real.pi)

/-- `compute_chern2_cross(phi_l1, phi_l2, use_v361)`: base value
2·φ₁·φ₂; if `use_v361`, three hardcoded special-case pairs are checked
by exact equality before the fallback `c2_base · (1 − φ₂/(4π))`. -/
noncomputable def compute_chern2_cross (phi_l1 phi_l2 : ℚ) (use_v361 : Bool) : ℝ :=
  let c2_base : ℝ := 2 * (phi_l1 : ℝ) * (phi_l2 : ℝ)
  if use_v361 = false then c2_base
  else if phi_l1 = 4.32 ∧ phi_l2 = 10.53 then 75.29
  else if phi_l1 = 2.17 ∧ phi_l2 = 4.32 then 15.50
  else if phi_l1 = 2.17 ∧ phi_l2 = 10.53 then 37.8
  else c2_base * (1 - (phi_l2 : ℝ) / (4 * Real.pi))

/-- `compute_topological_area()`: 16π². -/
noncomputable def compute_topological_area : ℝ := 16 * Real.pi ^ 2

/-- `compute_lambda_topo(c2)`: λ = c₂ / (16π²). -/
noncomputable def compute_lambda_topo (c2 : ℝ) : ℝ :=
  c2 / compute_topological_area

/-- `compute_amplitude_canonical(m_lepton, m_heavy, delta_a_nf, c2)`:
K = (m_heavy/m_lepton)², ε_top = c₂/(c₁² + K), A = δa·K·ε_top. -/
noncomputable def LeptonG2CanonicalV361.compute_amplitude_canonical
    (e : LeptonG2CanonicalV361) (m_lepton m_heavy delta_a_nf : ℚ) (c2 : ℝ) : ℝ :=
  let K : ℝ := ((m_heavy : ℝ) / (m_lepton : ℝ)) ^ 2
  let epsilon_top : ℝ := c2 / ((e.c1 : ℝ) ^ 2 + K)
  (delta_a_nf : ℝ) * K * epsilon_top

/-- Shared tail of `predict_g2_correction` after parameter resolution:
c₂, λ, A, then A·(1 − exp(−λ·c₂)). -/
noncomputable def LeptonG2CanonicalV361.predict_core (e : LeptonG2CanonicalV361)
    (m_lepton m_heavy phi_lepton phi_heavy delta_a_nf : ℚ) (use_v361 : Bool) : ℝ :=
  let c2 := compute_chern2_cross phi_lepton phi_heavy use_v361
  let lambda_topo := compute_lambda_topo c2
  let A := e.compute_amplitude_canonical m_lepton m_heavy delta_a_nf c2
  A * (1 - Real.exp (-(lambda_topo * c2)))

/-- `predict_g2_correction(lepton, use_v361)`: resolves the per-lepton
parameters (tau synthesizes `m_heavy = m_tau * 2.0` and
`phi_heavy = phi_tau * 1.5`) and applies the canonical formula; raises
on an unknown lepton identifier. -/
noncomputable def LeptonG2CanonicalV361.predict_g2_correction
    (e : LeptonG2CanonicalV361) (lepton : String) (use_v361 : Bool) :
    Except G2Error ℝ :=
  if lepton = "electron" then
    .ok (e.predict_core e.m_e e.m_mu e.phi_e e.phi_mu e.delta_a_e use_v361)
  else if lepton = "muon" then
    .ok (e.predict_core e.m_mu e.m_tau e.phi_mu e.phi_tau e.delta_a_mu use_v361)
  else if lepton = "tau" then
    .ok (e.predict_core e.m_tau (e.m_tau * 2) e.phi_tau (e.phi_tau * 1.5)
      e.delta_a_tau use_v361)
  else .error .unsupportedLepton

/-- Significance block of `calculate_significance` (lines 287-306):
`significance = delta / sigma_exp` when both are available and
`sigma_exp > 0`; in hardcoded-calibration mode with `use_v361`, replaced
by the `calibrated_significance` literal (electron 0.11, muon 0.00) when
the lepton's current `delta_a_nf` is within the matching window of its
reference-calibrated value. -/
noncomputable def LeptonG2CanonicalV361.mk_significance
    (e : LeptonG2CanonicalV361) (lepton : String) (use_v361 : Bool)
    (delta : Option ℝ) (sigma_exp : Option ℚ) : Option ℝ :=
  match delta, sigma_exp with
  | some d, some s =>
    if 0 < s then
      if e.hardcoded_calibration = true ∧ use_v361 = true ∧
          (lepton = "electron" ∨ lepton = "muon") then
        if (lepton = "electron" ∧ |e.delta_a_e - 3.1e-17| < 1e-18) ∨
            (lepton = "muon" ∧ |e.delta_a_mu - 1.4538e-10| < 1e-14) then
          some (if lepton = "electron" then (0.11 : ℝ) else 0)
        else some (d / (s : ℝ))
      else some (d / (s : ℝ))
    else none
  | _, _ => none

/-- Result record of `calculate_significance` (the `results` dict). -/
structure SignificanceResults where
  lepton : String
  a_lepton_eqft : ℝ
  a_sm : ℝ
  a_total : ℝ
  a_exp : Option ℚ
  delta : Option ℝ
  significance : Option ℝ
  phi_lepton : ℚ
  phi_heavy : ℚ
  omega : ℝ
  c2 : ℝ
  lambda_topo : ℝ

/-- Assembly of the `results` dictionary (lines 308-330): the
diagnostic c₂, Ω and λ are recomputed from the branch's phases. -/
noncomputable def build_results (lepton : String) (use_v361 : Bool)
    (a_lepton_eqft a_sm a_total : ℝ) (a_exp : Option ℚ) (delta : Option ℝ)
    (significance : Option ℝ) (phi_lepton phi_heavy : ℚ) : SignificanceResults where
  lepton := lepton
  a_lepton_eqft := a_lepton_eqft
  a_sm := a_sm
  a_total := a_total
  a_exp := a_exp
  delta := delta
  significance := significance
  phi_lepton := phi_lepton
  phi_heavy := phi_heavy
  omega := if use_v361 then compute_berry_overlap phi_lepton else 1
  c2 := compute_chern2_cross phi_lepton phi_heavy use_v361
  lambda_topo := compute_lambda_topo (compute_chern2_cross phi_lepton phi_heavy use_v361)

/-- `calculate_significance(lepton, a_lepton_eqft=None, use_v361=True)`:
computes the correction via `predict_g2_correction` when not supplied,
applies the per-lepton combination rule (electron: total against the
absolute measurement; muon: total against the experimental deviation;
tau: no reference), then the significance block. -/
noncomputable def LeptonG2CanonicalV361.calculate_significance
    (e : LeptonG2CanonicalV361) (lepton : String) (a_in : Option ℝ)
    (use_v361 : Bool) : Except G2Error SignificanceResults :=
  let a_eqft? : Except G2Error ℝ :=
    match a_in with
    | none => e.predict_g2_correction lepton use_v361
    | some a => .ok a
  match a_eqft? with
  | .error err => .error err
  | .ok a_eqft =>
    if lepton = "electron" then
      let a_total : ℝ := (e.a_e_sm : ℝ) + a_eqft
      let delta : Option ℝ := some (a_total - (e.a_e_exp : ℝ))
      let significance := e.mk_significance lepton use_v361 delta (some e.sigma_e_exp)
      .ok (build_results lepton use_v361 a_eqft (e.a_e_sm : ℝ) a_total
        (some e.a_e_exp) delta significance e.phi_e e.phi_mu)
    else if lepton = "muon" then
      let a_total : ℝ := a_eqft
      let delta : Option ℝ := some (a_total - (e.a_mu_exp : ℝ))
      let significance := e.mk_significance lepton use_v361 delta (some e.sigma_mu_exp)
      .ok (build_results lepton use_v361 a_eqft 0 a_total
        (some e.a_mu_exp) delta significance e.phi_mu e.phi_tau)
    else if lepton = "tau" then
      let a_total : ℝ := a_eqft
      let significance := e.mk_significance lepton use_v361 none none
      .ok (build_results lepton use_v361 a_eqft 0 a_total
        none none significance e.phi_tau (e.phi_tau * 1.5))
    else .error .unsupportedLepton

/-- `set_berry_phases(phi_e=None, phi_mu=None, phi_tau=None)`: each
phase supplied (not `None`) overwrites the stored one. -/
def LeptonG2CanonicalV361.set_berry_phases (e : LeptonG2CanonicalV361)
    (phi_e phi_mu phi_tau : Option ℚ) : LeptonG2CanonicalV361 :=
  { e with
    phi_e := phi_e.getD e.phi_e
    phi_mu := phi_mu.getD e.phi_mu
    phi_tau := phi_tau.getD e.phi_tau }

/-- `set_hardcoded_calibration(enabled)`: assigns the flag, then returns
`self.hardcoded_calibration` (the value just assigned). -/
def LeptonG2CanonicalV361.set_hardcoded_calibration
    (e : LeptonG2CanonicalV361) (enabled : Bool) : LeptonG2CanonicalV361 × Bool :=
  let e2 := { e with hardcoded_calibration := enabled }
  (e2, e2.hardcoded_calibration)

/-- `set_delta_a_nf(lepton, value)`: membership check, then
unconditional overwrite of the lepton's raw correction (keeping the
back-compatibility aliases synchronized). -/
def LeptonG2CanonicalV361.set_delta_a_nf (e : LeptonG2CanonicalV361)
    (lepton : String) (value : ℚ) : Except G2Error LeptonG2CanonicalV361 :=
  if lepton = "electron" then .ok { e with delta_a_e := value }
  else if lepton = "muon" then .ok { e with delta_a_mu := value }
  else if lepton = "tau" then .ok { e with delta_a_tau := value }
  else .error .unsupportedLepton

/-- Muon path of `UnifiedFrameworkWithV361.calculate_anomalous_magnetic_moment`
with `include_topological_correction=True, use_canonical=True, use_v361=True`.
The simplified base framework reports `a_exp = None` for the muon, so no
`discrepancy_sigma` comes from the base path; `a_nf` is the canonical
prediction, and the returned significance is the canonical calculator's
(lines 135-158 of `unified_framework_with_v361.py`).  Returns
`(a_nf, discrepancy_sigma)`. -/
noncomputable def calculate_anomalous_magnetic_moment_muon
    (fw : LeptonG2CanonicalV361) : ℝ × Option ℝ :=
  match fw.predict_g2_correction "muon" true with
  | .error _ => (0, none)
  | .ok a_nf =>
    match fw.calculate_significance "muon" (some a_nf) true with
    | .error _ => (a_nf, none)
    | .ok r => (a_nf, r.significance)

/-- `np.linspace(start, stop, num)` over exact rationals:
`start + k·(stop − start)/(num − 1)` for `k = 0, …, num − 1`. -/
def linspace (start stop : ℚ) (num : ℕ) : List ℚ :=
  (List.range num).map
    (fun (k : ℕ) => start + (k : ℚ) * ((stop - start) / ((num : ℚ) - 1)))

/-- Python `min(results, key=f)` over a nonempty list: the first element
attaining the minimal key (later elements replace the current best only
on a strictly smaller key). -/
noncomputable def pymin {α : Type} (f : α → ℝ) : List α → Option α
  | [] => none
  | x :: xs => some (xs.foldl (fun b a => if f a < f b then a else b) x)

/-- Framework state built by `calibrate_muon_g2_v361()` before the sweep:
default construction (c₁ = 2.0, hardcoded calibration on), then Berry
phases fixed at (2.17, 4.32, 10.53). -/
def sweep_base : LeptonG2CanonicalV361 :=
  (LeptonG2CanonicalV361.init 2 true).set_berry_phases
    (some 2.17) (some 4.32) (some 10.53)

/-- The sweep grid: `np.linspace(1.43e-10, 1.46e-10, 30)`. -/
def sweep_trials : List ℚ := linspace 1.43e-10 1.46e-10 30

/-- One iteration of the sweep loop (lines 58-75 of
`calibrate_muon_v361.py`): set the muon raw correction ("muon" is always
a supported lepton, so the setter cannot fail), evaluate with V36.1, and
record `(delta, a_bsm, significance)`.  For this engine the calculator
always yields a significance (`sigma_mu_exp = 6.3e-10 > 0`), which the
script reads unconditionally; `getD 0` stands for that always-present
lookup. -/
noncomputable def sweep_record (base : LeptonG2CanonicalV361) (delta : ℚ) :
    ℚ × ℝ × ℝ :=
  let fw := match base.set_delta_a_nf "muon" delta with
    | .ok e2 => e2
    | .error _ => base
  let res := calculate_anomalous_magnetic_moment_muon fw
  (delta, res.1, res.2.getD 0)

/-- The sweep's `results` list: one `CalibrationRecord` per grid point. -/
noncomputable def calibration_results : List (ℚ × ℝ × ℝ) :=
  sweep_trials.map (sweep_record sweep_base)

/-- `calibrate_muon_g2_v361()`'s selection step (line 78):
`min(results, key=lambda x: abs(x[2]))`. -/
noncomputable def calibrate_muon_g2_v361 : Option (ℚ × ℝ × ℝ) :=
  pymin (fun r => |r.2.2|) calibration_results

/-- Spec model for the refinement claim on `predictCorrection` (spec
§4.2): c₂ via `crossClass`, λ = c₂/(16π²), K = (heavyMass/mass)²,
ε_top = c₂/(toleranceClass² + K), A = rawCorrection·K·ε_top, and result
A·(1 − exp(−λ·c₂)). -/
noncomputable def predictCorrection_spec
    (mass heavyMass phase heavyPhase rawCorrection toleranceClass : ℚ)
    (applyOverlapVariant : Bool) : ℝ :=
  let c2 := compute_chern2_cross phase heavyPhase applyOverlapVariant
  let lam := c2 / (16 * Real.pi ^ 2)
  let K : ℝ := ((heavyMass : ℝ) / (mass : ℝ)) ^ 2
  let epsilonTop : ℝ := c2 / ((toleranceClass : ℝ) ^ 2 + K)
  let A : ℝ := (rawCorrection : ℝ) * K * epsilonTop
  A * (1 - Real.exp (-(lam * c2)))

/-- Value returned by `predict_g2_correction("muon", use_v361=True)` on a
default-constructed engine (the end-to-end scenario's prediction). -/
noncomputable def predictMuonDefault : ℝ :=
  match (LeptonG2CanonicalV361.init 2 true).predict_g2_correction "muon" true with
  | .ok a => a
  | .error _ => 0

/-! ## Helper lemmas -/

lemma cross_mu_tau : compute_chern2_cross 4.32 10.53 true = 75.29 := by
  norm_num [compute_chern2_cross]

lemma predict_muon_ok (e : LeptonG2CanonicalV361) (v : Bool) :
    e.predict_g2_correction "muon" v =
      .ok (e.predict_core e.m_mu e.m_tau e.phi_mu e.phi_tau e.delta_a_mu v) := by
  simp [LeptonG2CanonicalV361.predict_g2_correction]

lemma predict_electron_ok (e : LeptonG2CanonicalV361) (v : Bool) :
    e.predict_g2_correction "electron" v =
      .ok (e.predict_core e.m_e e.m_mu e.phi_e e.phi_mu e.delta_a_e v) := by
  simp [LeptonG2CanonicalV361.predict_g2_correction]

lemma calc_sig_muon_eq (e : LeptonG2CanonicalV361) (a : ℝ) (v : Bool) :
    e.calculate_significance "muon" (some a) v =
      .ok (build_results "muon" v a 0 a (some e.a_mu_exp)
        (some (a - (e.a_mu_exp : ℝ)))
        (e.mk_significance "muon" v (some (a - (e.a_mu_exp : ℝ))) (some e.sigma_mu_exp))
        e.phi_mu e.phi_tau) := by
  simp [LeptonG2CanonicalV361.calculate_significance]

lemma calc_sig_muon_none (e : LeptonG2CanonicalV361) (v : Bool) :
    e.calculate_significance "muon" none v =
      e.calculate_significance "muon"
        (some (e.predict_core e.m_mu e.m_tau e.phi_mu e.phi_tau e.delta_a_mu v)) v := by
  simp [LeptonG2CanonicalV361.calculate_significance,
    LeptonG2CanonicalV361.predict_g2_correction]

lemma calc_sig_electron_eq (e : LeptonG2CanonicalV361) (a : ℝ) (v : Bool) :
    e.calculate_significance "electron" (some a) v =
      .ok (build_results "electron" v a (e.a_e_sm : ℝ) ((e.a_e_sm : ℝ) + a)
        (some e.a_e_exp) (some ((e.a_e_sm : ℝ) + a - (e.a_e_exp : ℝ)))
        (e.mk_significance "electron" v (some ((e.a_e_sm : ℝ) + a - (e.a_e_exp : ℝ)))
          (some e.sigma_e_exp))
        e.phi_e e.phi_mu) := by
  simp [LeptonG2CanonicalV361.calculate_significance]

lemma calc_sig_electron_none (e : LeptonG2CanonicalV361) (v : Bool) :
    e.calculate_significance "electron" none v =
      e.calculate_significance "electron"
        (some (e.predict_core e.m_e e.m_mu e.phi_e e.phi_mu e.delta_a_e v)) v := by
  simp [LeptonG2CanonicalV361.calculate_significance,
    LeptonG2CanonicalV361.predict_g2_correction]

lemma mk_sig_muon_override (e : LeptonG2CanonicalV361) (d : ℝ)
    (hhc : e.hardcoded_calibration = true) (hs : 0 < e.sigma_mu_exp)
    (hw : |e.delta_a_mu - 1.4538e-10| < 1e-14) :
    e.mk_significance "muon" true (some d) (some e.sigma_mu_exp) = some 0 := by
  simp [LeptonG2CanonicalV361.mk_significance, hhc, hs, hw]

lemma mk_sig_muon_raw_nohc (e : LeptonG2CanonicalV361) (d : ℝ)
    (hhc : e.hardcoded_calibration = false) (hs : 0 < e.sigma_mu_exp) :
    e.mk_significance "muon" true (some d) (some e.sigma_mu_exp) =
      some (d / (e.sigma_mu_exp : ℝ)) := by
  simp [LeptonG2CanonicalV361.mk_significance, hhc, hs]

lemma mk_sig_muon_raw_outwin (e : LeptonG2CanonicalV361) (d : ℝ)
    (hs : 0 < e.sigma_mu_exp) (hw : ¬ |e.delta_a_mu - 1.4538e-10| < 1e-14) :
    e.mk_significance "muon" true (some d) (some e.sigma_mu_exp) =
      some (d / (e.sigma_mu_exp : ℝ)) := by
  simp [LeptonG2CanonicalV361.mk_significance, hs, hw]

lemma mk_sig_electron_override (e : LeptonG2CanonicalV361) (d : ℝ)
    (hhc : e.hardcoded_calibration = true) (hs : 0 < e.sigma_e_exp)
    (hw : |e.delta_a_e - 3.1e-17| < 1e-18) :
    e.mk_significance "electron" true (some d) (some e.sigma_e_exp) = some 0.11 := by
  simp [LeptonG2CanonicalV361.mk_significance, hhc, hs, hw]

lemma mk_sig_electron_raw_outwin (e : LeptonG2CanonicalV361) (d : ℝ)
    (hs : 0 < e.sigma_e_exp) (hw : ¬ |e.delta_a_e - 3.1e-17| < 1e-18) :
    e.mk_significance "electron" true (some d) (some e.sigma_e_exp) =
      some (d / (e.sigma_e_exp : ℝ)) := by
  simp [LeptonG2CanonicalV361.mk_significance, hs, hw]

/-! ## Claims -/

/-- Claim C2: with the overlap variant enabled, `crossClass` returns
exactly the hardcoded literals for the three documented phase pairs. -/
theorem cross_class_lookup_fidelity :
    compute_chern2_cross 4.32 10.53 true = 75.29 ∧
    compute_chern2_cross 2.17 4.32 true = 15.50 ∧
    compute_chern2_cross 2.17 10.53 true = 37.8 := by
  refine ⟨cross_mu_tau, ?_, ?_⟩ <;> norm_num [compute_chern2_cross]

/-- Claim C5: for every phase pair, the basic variant is exactly
2·φ₁·φ₂; with the overlap variant on and the pair not in the lookup
table, the result is 2·φ₁·φ₂·(1 − φ₂/(4π)) — the overlap factor of the
second phase only. -/
theorem cross_class_formula (phi1 phi2 : ℚ) :
    compute_chern2_cross phi1 phi2 false = 2 * (phi1 : ℝ) * (phi2 : ℝ) ∧
    (¬(phi1 = 4.32 ∧ phi2 = 10.53) → ¬(phi1 = 2.17 ∧ phi2 = 4.32) →
      ¬(phi1 = 2.17 ∧ phi2 = 10.53) →
      compute_chern2_cross phi1 phi2 true =
        2 * (phi1 : ℝ) * (phi2 : ℝ) * (1 - (phi2 : ℝ) / (4 * Real.pi))) := by
  constructor
  · simp [compute_chern2_cross]
  · intro h1 h2 h3
    simp [compute_chern2_cross, h1, h2, h3]

theorem cross_class_formula_witness :
    (¬((1 : ℚ) = 4.32 ∧ (1 : ℚ) = 10.53)) ∧
    (¬((1 : ℚ) = 2.17 ∧ (1 : ℚ) = 4.32)) ∧
    (¬((1 : ℚ) = 2.17 ∧ (1 : ℚ) = 10.53)) ∧
    compute_chern2_cross 1 1 true =
      2 * ((1 : ℚ) : ℝ) * ((1 : ℚ) : ℝ) * (1 - ((1 : ℚ) : ℝ) / (4 * Real.pi)) :=
  ⟨by norm_num, by norm_num, by norm_num,
    (cross_class_formula 1 1).2 (by norm_num) (by norm_num) (by norm_num)⟩

/-- Claim C6 (counterexample): on an engine whose override toggle is
`true`, `set_hardcoded_calibration false` returns `false`, not the
previous state `true`. -/
theorem set_override_mode_counterexample :
    ((LeptonG2CanonicalV361.init 2 true).set_hardcoded_calibration false).2 ≠
      (LeptonG2CanonicalV361.init 2 true).hardcoded_calibration := by
  simp [LeptonG2CanonicalV361.init, LeptonG2CanonicalV361.set_hardcoded_calibration]

/-- Claim C6 (amended): `setOverrideMode(enabled)` sets the global
override toggle and returns the new (current) state of the toggle, i.e.
the value just assigned, for every boolean argument and every prior
state. -/
theorem set_override_mode_returns_new_state (e : LeptonG2CanonicalV361) (b : Bool) :
    (e.set_hardcoded_calibration b).1.hardcoded_calibration = b ∧
    (e.set_hardcoded_calibration b).2 = b :=
  ⟨rfl, rfl⟩

/-- Claim C9: for the tau lepton, `calculate_significance` always
returns an absent significance and an absent discrepancy, for both
variants, any override mode, and any parameter-store values. -/
theorem tau_significance_absent (e : LeptonG2CanonicalV361) (a_in : Option ℝ)
    (v : Bool) :
    (e.calculate_significance "tau" a_in v).map
      (fun r => (r.delta, r.significance)) = .ok (none, none) := by
  cases a_in <;>
    simp [LeptonG2CanonicalV361.calculate_significance,
      LeptonG2CanonicalV361.predict_g2_correction,
      LeptonG2CanonicalV361.mk_significance, build_results, Except.map]

/-- Claim C8: for every lepton identifier other than "electron",
"muon", "tau", and either variant, `predict_g2_correction` and
`set_delta_a_nf` fail immediately with the unsupported-lepton error. -/
theorem unsupported_lepton_error (lepton : String)
    (h1 : lepton ≠ "electron") (h2 : lepton ≠ "muon") (h3 : lepton ≠ "tau")
    (v : Bool) (e : LeptonG2CanonicalV361) (value : ℚ) :
    e.predict_g2_correction lepton v = .error .unsupportedLepton ∧
    e.set_delta_a_nf lepton value = .error .unsupportedLepton := by
  constructor <;>
    simp [LeptonG2CanonicalV361.predict_g2_correction,
      LeptonG2CanonicalV361.set_delta_a_nf, h1, h2, h3]

theorem unsupported_lepton_error_witness :
    ("positron" ≠ "electron") ∧ ("positron" ≠ "muon") ∧ ("positron" ≠ "tau") ∧
    ((LeptonG2CanonicalV361.init 2 true).predict_g2_correction "positron" true =
        .error .unsupportedLepton ∧
      (LeptonG2CanonicalV361.init 2 true).set_delta_a_nf "positron" 0 =
        .error .unsupportedLepton) :=
  ⟨by decide, by decide, by decide,
    unsupported_lepton_error "positron" (by decide) (by decide) (by decide)
      true (LeptonG2CanonicalV361.init 2 true) 0⟩

/-- Claim C1: with override mode enabled, the overlap variant on, and
the muon raw correction within the matching window of the reference
literal 1.4538e-10, `calculate_significance("muon", use_v361=True)`
returns significance exactly 0.00; with override mode disabled, the same
call returns the raw computed discrepancy/uncertainty unchanged. -/
theorem muon_override_toggling (e : LeptonG2CanonicalV361)
    (hs : 0 < e.sigma_mu_exp) :
    (e.hardcoded_calibration = true → |e.delta_a_mu - 1.4538e-10| < 1e-14 →
      (e.calculate_significance "muon" none true).map SignificanceResults.significance
        = .ok (some 0)) ∧
    (e.hardcoded_calibration = false →
      ∀ a : ℝ, e.predict_g2_correction "muon" true = .ok a →
      (e.calculate_significance "muon" none true).map SignificanceResults.significance
        = .ok (some ((a - (e.a_mu_exp : ℝ)) / (e.sigma_mu_exp : ℝ)))) := by
  rw [calc_sig_muon_none, calc_sig_muon_eq]
  constructor
  · intro hhc hw
    simp [Except.map, build_results, mk_sig_muon_override e _ hhc hs hw]
  · intro hhc a ha
    rw [predict_muon_ok] at ha
    injection ha with ha
    subst ha
    simp [Except.map, build_results, mk_sig_muon_raw_nohc e _ hhc hs]

theorem muon_override_toggling_witness :
    0 < (LeptonG2CanonicalV361.init 2 true).sigma_mu_exp ∧
    (((LeptonG2CanonicalV361.init 2 true).hardcoded_calibration = true →
        |(LeptonG2CanonicalV361.init 2 true).delta_a_mu - 1.4538e-10| < 1e-14 →
        ((LeptonG2CanonicalV361.init 2 true).calculate_significance "muon" none true).map
          SignificanceResults.significance = .ok (some 0)) ∧
      ((LeptonG2CanonicalV361.init 2 true).hardcoded_calibration = false →
        ∀ a : ℝ,
        (LeptonG2CanonicalV361.init 2 true).predict_g2_correction "muon" true = .ok a →
        ((LeptonG2CanonicalV361.init 2 true).calculate_significance "muon" none true).map
          SignificanceResults.significance =
          .ok (some ((a - ((LeptonG2CanonicalV361.init 2 true).a_mu_exp : ℝ)) /
            (((LeptonG2CanonicalV361.init 2 true).sigma_mu_exp : ℝ)))))) :=
  ⟨by norm_num [LeptonG2CanonicalV361.init],
    muon_override_toggling (LeptonG2CanonicalV361.init 2 true)
      (by norm_num [LeptonG2CanonicalV361.init])⟩

/-- Claim C10: the calibration-override matching windows are the fixed
absolute tolerances |δa_μ − 1.4538e-10| < 1e-14 (muon, target 0.00) and
|δa_e − 3.1e-17| < 1e-18 (electron, target 0.11); outside the window the
raw computed significance is returned even with override mode enabled
and the overlap variant on. -/
theorem calibration_override_windows (e : LeptonG2CanonicalV361)
    (hse : 0 < e.sigma_e_exp) (hsm : 0 < e.sigma_mu_exp)
    (hhc : e.hardcoded_calibration = true) :
    (|e.delta_a_mu - 1.4538e-10| < 1e-14 →
      (e.calculate_significance "muon" none true).map SignificanceResults.significance
        = .ok (some 0)) ∧
    (¬ |e.delta_a_mu - 1.4538e-10| < 1e-14 →
      ∀ a : ℝ, e.predict_g2_correction "muon" true = .ok a →
      (e.calculate_significance "muon" none true).map SignificanceResults.significance
        = .ok (some ((a - (e.a_mu_exp : ℝ)) / (e.sigma_mu_exp : ℝ)))) ∧
    (|e.delta_a_e - 3.1e-17| < 1e-18 →
      (e.calculate_significance "electron" none true).map SignificanceResults.significance
        = .ok (some 0.11)) ∧
    (¬ |e.delta_a_e - 3.1e-17| < 1e-18 →
      ∀ a : ℝ, e.predict_g2_correction "electron" true = .ok a →
      (e.calculate_significance "electron" none true).map SignificanceResults.significance
        = .ok (some (((e.a_e_sm : ℝ) + a - (e.a_e_exp : ℝ)) / (e.sigma_e_exp : ℝ)))) := by
  refine ⟨?_, ?_, ?_, ?_⟩
  · intro hw
    rw [calc_sig_muon_none, calc_sig_muon_eq]
    simp [Except.map, build_results, mk_sig_muon_override e _ hhc hsm hw]
  · intro hw a ha
    rw [predict_muon_ok] at ha
    injection ha with ha
    subst ha
    rw [calc_sig_muon_none, calc_sig_muon_eq]
    simp [Except.map, build_results, mk_sig_muon_raw_outwin e _ hsm hw]
  · intro hw
    rw [calc_sig_electron_none, calc_sig_electron_eq]
    simp [Except.map, build_results, mk_sig_electron_override e _ hhc hse hw]
  · intro hw a ha
    rw [predict_electron_ok] at ha
    injection ha with ha
    subst ha
    rw [calc_sig_electron_none, calc_sig_electron_eq]
    simp [Except.map, build_results, mk_sig_electron_raw_outwin e _ hse hw]

theorem calibration_override_windows_witness :
    0 < (LeptonG2CanonicalV361.init 2 true).sigma_e_exp ∧
    0 < (LeptonG2CanonicalV361.init 2 true).sigma_mu_exp ∧
    (LeptonG2CanonicalV361.init 2 true).hardcoded_calibration = true ∧
    (|(LeptonG2CanonicalV361.init 2 true).delta_a_mu - 1.4538e-10| < 1e-14 →
      ((LeptonG2CanonicalV361.init 2 true).calculate_significance "muon" none true).map
        SignificanceResults.significance = .ok (some 0)) :=
  ⟨by norm_num [LeptonG2CanonicalV361.init],
    by norm_num [LeptonG2CanonicalV361.init], rfl,
    (calibration_override_windows (LeptonG2CanonicalV361.init 2 true)
      (by norm_num [LeptonG2CanonicalV361.init])
      (by norm_num [LeptonG2CanonicalV361.init]) rfl).1⟩

/-- Claim C4: for every recognized lepton, `predict_g2_correction`
resolves the lepton's parameters from the store (tau synthesizing
heavyMass = 2·mass and heavyPhase = 1.5·phase) and returns
A·(1 − exp(−λ·c₂)) with c₂, λ, K, ε_top, A as the spec states. -/
theorem predict_correction_refines_spec (e : LeptonG2CanonicalV361) (v : Bool) :
    e.predict_g2_correction "electron" v =
      .ok (predictCorrection_spec e.m_e e.m_mu e.phi_e e.phi_mu e.delta_a_e e.c1 v) ∧
    e.predict_g2_correction "muon" v =
      .ok (predictCorrection_spec e.m_mu e.m_tau e.phi_mu e.phi_tau e.delta_a_mu e.c1 v) ∧
    e.predict_g2_correction "tau" v =
      .ok (predictCorrection_spec e.m_tau (2 * e.m_tau) e.phi_tau (1.5 * e.phi_tau)
        e.delta_a_tau e.c1 v) := by
  rw [show (2 * e.m_tau : ℚ) = e.m_tau * 2 from mul_comm _ _,
    show (1.5 * e.phi_tau : ℚ) = e.phi_tau * 1.5 from mul_comm _ _]
  refine ⟨?_, ?_, ?_⟩ <;>
    simp [LeptonG2CanonicalV361.predict_g2_correction,
      LeptonG2CanonicalV361.predict_core,
      LeptonG2CanonicalV361.compute_amplitude_canonical,
      predictCorrection_spec, compute_lambda_topo, compute_topological_area]

lemma predictMuonDefault_eq :
    predictMuonDefault =
      (1.4538e-10 : ℝ) * (((1.77686 : ℝ) / 0.105658) ^ 2) *
        (75.29 / ((2 : ℝ) ^ 2 + ((1.77686 : ℝ) / 0.105658) ^ 2)) *
        (1 - Real.exp (-(75.29 / (16 * Real.pi ^ 2) * 75.29))) := by
  simp only [predictMuonDefault]
  rw [predict_muon_ok]
  simp only [LeptonG2CanonicalV361.init, LeptonG2CanonicalV361.predict_core,
    LeptonG2CanonicalV361.compute_amplitude_canonical,
    compute_lambda_topo, compute_topological_area]
  rw [cross_mu_tau]
  norm_num

lemma predictMuonDefault_bounds :
    1e-8 < predictMuonDefault ∧ predictMuonDefault < 1.1e-8 := by
  rw [predictMuonDefault_eq]
  set t : ℝ := 75.29 / (16 * Real.pi ^ 2) * 75.29 with ht_def
  have hpi : Real.pi < 3.15 := Real.pi_lt_d2
  have hpi0 : 0 < Real.pi := Real.pi_pos
  have h16pos : 0 < 16 * Real.pi ^ 2 := by positivity
  have ht_lb : (35 : ℝ) < t := by
    rw [ht_def, div_mul_eq_mul_div, lt_div_iff₀ h16pos]
    nlinarith
  have hexp_pos : 0 < Real.exp (-t) := Real.exp_pos _
  have hexp_lt : Real.exp (-t) < 1 / 36 := by
    have h1 : t + 1 ≤ Real.exp t := Real.add_one_le_exp t
    have h36 : (36 : ℝ) < Real.exp t := by linarith
    rw [Real.exp_neg]
    have h2 := inv_strictAnti₀ (show (0 : ℝ) < 36 by norm_num) h36
    norm_num at h2 ⊢
    linarith
  set A : ℝ := (1.4538e-10 : ℝ) * (((1.77686 : ℝ) / 0.105658) ^ 2) *
    (75.29 / ((2 : ℝ) ^ 2 + ((1.77686 : ℝ) / 0.105658) ^ 2)) with hA_def
  have hA_lb : (1.079e-8 : ℝ) < A := by rw [hA_def]; norm_num
  have hA_ub : A < (1.0794e-8 : ℝ) := by rw [hA_def]; norm_num
  have hfac : (35 : ℝ) / 36 < 1 - Real.exp (-t) := by linarith
  have hfac1 : 1 - Real.exp (-t) < 1 := by linarith
  constructor
  · nlinarith
  · nlinarith

/-- Claim C7 (counterexample): on the default-constructed engine with
phases (2.17, 4.32, 10.53), `predict_g2_correction("muon", True)`
returns a value exceeding 1e-8, hence not of order of magnitude ~1e-9. -/
theorem predict_muon_default_counterexample :
    (LeptonG2CanonicalV361.init 2 true).predict_g2_correction "muon" true =
      .ok predictMuonDefault ∧ ¬ predictMuonDefault < 1e-8 := by
  constructor
  · simp [predictMuonDefault, LeptonG2CanonicalV361.predict_g2_correction]
  · exact not_lt.mpr (le_of_lt predictMuonDefault_bounds.1)

/-- Claim C7 (amended): on a freshly constructed engine with default
parameters and Berry phases (2.17, 4.32, 10.53), `predict("muon", true)`
returns a value of order of magnitude ~1e-8 (strictly between 1e-8 and
1.1e-8). -/
theorem predict_muon_default_magnitude :
    (LeptonG2CanonicalV361.init 2 true).predict_g2_correction "muon" true =
      .ok predictMuonDefault ∧
    1e-8 < predictMuonDefault ∧ predictMuonDefault < 1.1e-8 :=
  ⟨by simp [predictMuonDefault, LeptonG2CanonicalV361.predict_g2_correction],
    predictMuonDefault_bounds.1, predictMuonDefault_bounds.2⟩

lemma foldl_min_spec {α : Type} (f : α → ℝ) (xs : List α) (x : α) :
    (xs.foldl (fun b a => if f a < f b then a else b) x) ∈ x :: xs ∧
    f (xs.foldl (fun b a => if f a < f b then a else b) x) ≤ f x ∧
    ∀ a ∈ xs, f (xs.foldl (fun b a => if f a < f b then a else b) x) ≤ f a := by
  induction xs generalizing x with
  | nil => simp
  | cons y ys ih =>
    simp only [List.foldl_cons]
    by_cases h : f y < f x
    · rw [if_pos h]
      obtain ⟨hmem, hle, hall⟩ := ih y
      refine ⟨List.mem_cons_of_mem x hmem, by linarith, ?_⟩
      intro a ha
      rcases List.mem_cons.mp ha with h1 | h1
      · exact h1 ▸ hle
      · exact hall a h1
    · rw [if_neg h]
      push_neg at h
      obtain ⟨hmem, hle, hall⟩ := ih x
      refine ⟨?_, hle, ?_⟩
      · rcases List.mem_cons.mp hmem with h1 | h1
        · rw [h1]; exact List.mem_cons_self x _
        · exact List.mem_cons_of_mem x (List.mem_cons_of_mem y h1)
      · intro a ha
        rcases List.mem_cons.mp ha with h1 | h1
        · rw [h1]; linarith
        · exact hall a h1

lemma pymin_spec {α : Type} (f : α → ℝ) (l : List α) (hl : l ≠ []) :
    ∃ b, pymin f l = some b ∧ b ∈ l ∧ ∀ a ∈ l, f b ≤ f a := by
  cases l with
  | nil => exact absurd rfl hl
  | cons x xs =>
    obtain ⟨hmem, hle, hall⟩ := foldl_min_spec f xs x
    refine ⟨_, rfl, hmem, ?_⟩
    intro a ha
    rcases List.mem_cons.mp ha with h1 | h1
    · exact h1 ▸ hle
    · exact hall a h1

lemma linspace_mem_bounds (a b : ℚ) (n : ℕ) (hab : a ≤ b) :
    ∀ d ∈ linspace a b n, a ≤ d ∧ d ≤ b := by
  intro d hd
  simp only [linspace] at hd
  obtain ⟨k, hkr, rfl⟩ := List.mem_map.mp hd
  have hk : k < n := List.mem_range.mp hkr
  have hk0 : (0 : ℚ) ≤ (k : ℚ) := Nat.cast_nonneg k
  by_cases hn : ((n : ℚ) - 1) = 0
  · rw [hn, div_zero, mul_zero, add_zero]
    exact ⟨le_refl a, hab⟩
  · have h1n : 1 ≤ n := by
      rcases Nat.eq_zero_or_pos n with h0 | h0
      · subst h0; exact absurd hk (Nat.not_lt_zero k)
      · exact h0
    have hne1 : n ≠ 1 := by rintro rfl; simp at hn
    have h2n : 2 ≤ n := by omega
    have h2nq : (2 : ℚ) ≤ (n : ℚ) := by exact_mod_cast h2n
    have hnpos : 0 < (n : ℚ) - 1 := by linarith
    have hstep : 0 ≤ (b - a) / ((n : ℚ) - 1) := div_nonneg (by linarith) hnpos.le
    constructor
    · nlinarith
    · have hk1 : (k : ℚ) + 1 ≤ (n : ℚ) := by exact_mod_cast hk
      have hkle : (k : ℚ) ≤ (n : ℚ) - 1 := by linarith
      have hmul : (k : ℚ) * ((b - a) / ((n : ℚ) - 1)) ≤
          ((n : ℚ) - 1) * ((b - a) / ((n : ℚ) - 1)) :=
        mul_le_mul_of_nonneg_right hkle hstep
      have heq : ((n : ℚ) - 1) * ((b - a) / ((n : ℚ) - 1)) = b - a := by
        field_simp
      linarith

lemma sweep_trials_bounds :
    ∀ d ∈ sweep_trials, 1.43e-10 ≤ d ∧ d ≤ 1.46e-10 :=
  linspace_mem_bounds 1.43e-10 1.46e-10 30 (by norm_num)

lemma sweep_record_fst (base : LeptonG2CanonicalV361) (d : ℚ) :
    (sweep_record base d).1 = d := by
  simp only [sweep_record]

lemma sweep_record_sig_override (d : ℚ) (hw : |d - 1.4538e-10| < 1e-14) :
    (sweep_record sweep_base d).2.2 = 0 := by
  have hset : sweep_base.set_delta_a_nf "muon" d =
      .ok { sweep_base with delta_a_mu := d } := by
    simp [LeptonG2CanonicalV361.set_delta_a_nf]
  have h1 : ({ sweep_base with delta_a_mu := d } :
      LeptonG2CanonicalV361).hardcoded_calibration = true := rfl
  have h2 : (0 : ℚ) < ({ sweep_base with delta_a_mu := d } :
      LeptonG2CanonicalV361).sigma_mu_exp := by
    norm_num [sweep_base, LeptonG2CanonicalV361.set_berry_phases,
      LeptonG2CanonicalV361.init]
  have h3 : |({ sweep_base with delta_a_mu := d } :
      LeptonG2CanonicalV361).delta_a_mu - 1.4538e-10| < 1e-14 := by simpa using hw
  simp only [sweep_record, hset]
  simp only [calculate_anomalous_magnetic_moment_muon, predict_muon_ok,
    calc_sig_muon_eq]
  simp [build_results, mk_sig_muon_override _ _ h1 h2 h3]

/-- Claim C3: sweeping the muon raw correction over
`linspace(1.43e-10, 1.46e-10, 30)` on the default engine with phases
(2.17, 4.32, 10.53) and selecting the record of minimum absolute
significance (first occurrence on ties) yields a best trial value in
[1.43e-10, 1.46e-10] with |significance| ≤ 0.05. -/
theorem calibration_round_trip :
    ∃ best : ℚ × ℝ × ℝ, calibrate_muon_g2_v361 = some best ∧
      1.43e-10 ≤ best.1 ∧ best.1 ≤ 1.46e-10 ∧ |best.2.2| ≤ 0.05 := by
  have hne : calibration_results ≠ [] := by
    have hlen : calibration_results.length = 30 := by
      unfold calibration_results sweep_trials linspace
      rw [List.length_map, List.length_map, List.length_range]
    intro h
    rw [h] at hlen
    simp at hlen
  obtain ⟨b, hb, hmem, hmin⟩ := pymin_spec (fun r => |r.2.2|) _ hne
  have h23 : ((1.43e-10 : ℚ) + ((23 : ℕ) : ℚ) *
      (((1.46e-10 : ℚ) - 1.43e-10) / (((30 : ℕ) : ℚ) - 1))) ∈ sweep_trials := by
    have hm := List.mem_map_of_mem
      (fun k : ℕ => (1.43e-10 : ℚ) + (k : ℚ) *
        (((1.46e-10 : ℚ) - 1.43e-10) / (((30 : ℕ) : ℚ) - 1)))
      (show 23 ∈ List.range 30 by decide)
    exact hm
  have hw23 : |((1.43e-10 : ℚ) + ((23 : ℕ) : ℚ) *
      (((1.46e-10 : ℚ) - 1.43e-10) / (((30 : ℕ) : ℚ) - 1))) - 1.4538e-10| <
      1e-14 := by
    push_cast
    rw [abs_lt]
    norm_num
  have h23mem : sweep_record sweep_base
      ((1.43e-10 : ℚ) + ((23 : ℕ) : ℚ) *
        (((1.46e-10 : ℚ) - 1.43e-10) / (((30 : ℕ) : ℚ) - 1))) ∈
      calibration_results :=
    List.mem_map_of_mem _ h23
  have hle0 := hmin _ h23mem
  rw [sweep_record_sig_override _ hw23] at hle0
  simp only [abs_zero] at hle0
  obtain ⟨d, hd, hbd⟩ := List.mem_map.mp hmem
  have hfst : b.1 = d := by rw [← hbd, sweep_record_fst]
  refine ⟨b, hb, ?_, ?_, ?_⟩
  · rw [hfst]; exact (sweep_trials_bounds d hd).1
  · rw [hfst]; exact (sweep_trials_bounds d hd).2
  · have := abs_nonneg b.2.2
    have h05 : (0 : ℝ) ≤ 0.05 := by norm_num
    linarith
